import Mathlib

/-!
Shallow embedding of the attribution-and-aggregation engine of
src/dashboard.py: per-record classification (adhoc owner, cancel owner,
vehicle match), the hub summary table, the vendor failure table and the
fleet KPI scorecards. Missing CSV cells (pandas NaN) are modelled as
none; a float NaN arising from a 0/0 division is modelled as none in
an Option-valued rate.
-/

namespace Dashboard

/-- A raw trip record, one CSV row. Every cell may be missing (NaN),
modelled as none. -/
structure TripRecord where
  master_trip_code : Option String
  trip_date : Option String
  source_mh_name : Option String
  actual_billing_basis : Option String
  trip_status : Option String
  adhoc_trip_creation_reason : Option String
  cancellation_reason_code : Option String
  planned_vehicle_type : Option String
  actual_vehicle_type : Option String
  actual_vendor : Option String
deriving DecidableEq

/-- Python str(cell): a missing cell (NaN) prints as the string nan. -/
def strOfCell : Option String → String
  | none => "nan"
  | some s => s

/-- Bool test that the needle list is an initial segment of the hay list. -/
def startsWithL : List Char → List Char → Bool
  | _, [] => true
  | [], _ :: _ => false
  | h :: t, n :: m => h == n && startsWithL t m

/-- Bool substring containment on char lists, the Python in operator
on strings. -/
def containsSub : List Char → List Char → Bool
  | [], needle => needle.isEmpty
  | h :: t, needle => startsWithL (h :: t) needle || containsSub t needle

/-- Python needle in hay for strings: substring containment,
case-sensitive. -/
def containsTok (hay needle : String) : Bool :=
  containsSub hay.data needle.data

/-- Uppercase every character of a string. Used only to state the
case-insensitive reading of the spec, not by the engine itself. -/
def upperStr (s : String) : String :=
  String.mk (s.data.map Char.toUpper)

/-- LOGIC: Attribution for Adhocs (get_adhoc_owner in dashboard.py).
The containment test is the Python in operator, hence case-sensitive. -/
def get_adhoc_owner (r : TripRecord) : String :=
  if r.actual_billing_basis ≠ some "Adhoc" then "N/A"
  else if containsTok (strOfCell r.adhoc_trip_creation_reason) "VENDOR" then "Vendor Issue"
  else "Zepto Issue"

/-- The hardcoded vendor-fault cancellation codes of dashboard.py. -/
def vendor_cancel_codes : List String :=
  ["PLANNED_VEHICLE_NOT_PROVIDED_BY_VENDOR", "VEHICLE_UNAVAILABILITY",
   "PLANNED_VEHICLE_BREAKDOWN", "TRANSPORT_VENDOR_ISSUE"]

/-- LOGIC: Attribution for Cancellations (get_cancel_owner in
dashboard.py). Membership test of the stringified code in the fixed
code list. -/
def get_cancel_owner (r : TripRecord) : String :=
  if r.trip_status ≠ some "CANCELLED" then "N/A"
  else if strOfCell r.cancellation_reason_code ∈ vendor_cancel_codes then "Vendor Issue"
  else "Zepto Issue"

/-- LOGIC: Vehicle Compliance. Pandas elementwise equality: a missing
value on either side compares unequal, NaN == NaN included. -/
def vehicle_match (r : TripRecord) : Bool :=
  match r.planned_vehicle_type, r.actual_vehicle_type with
  | some p, some a => p == a
  | _, _ => false

/-- The 0/1 int cast of the vehicle_match column. -/
def matchInt (r : TripRecord) : ℚ :=
  if vehicle_match r then 1 else 0

/-- Round a rational to the nearest integer, halves to even, as float
formatting does. -/
def roundHalfEven (x : ℚ) : ℤ :=
  let f := ⌊x⌋
  let frac := x - f
  if frac < 1/2 then f
  else if 1/2 < frac then f + 1
  else if f % 2 = 0 then f else f + 1

/-- Render a nonnegative rational with one decimal place, the format
spec .1f restricted to the nonnegative values the engine produces. -/
def fmt1 (q : ℚ) : String :=
  toString ((roundHalfEven (q * 10)).toNat / 10) ++ "." ++
    toString ((roundHalfEven (q * 10)).toNat % 10)

/-- Render an optional percentage: a NaN value (none) prints as nan,
so the formatted cell reads nan with a percent sign. -/
def renderPct : Option ℚ → String
  | none => "nan%"
  | some q => fmt1 q ++ "%"

/-- Mean of a list of rationals; the pandas mean of an empty series is
NaN, modelled as none. -/
def meanQ (xs : List ℚ) : Option ℚ :=
  if xs.length = 0 then none else some (xs.sum / xs.length)

/-- Numpy integer count division num / den: a zero denominator gives a
non-finite float (here always NaN since every numerator is bounded by
its denominator), modelled as none; no exception is raised. -/
def npDiv (num den : ℕ) : Option ℚ :=
  if den = 0 then none else some ((num : ℚ) / den)

/-- Count of records billed as Planned. -/
def plannedCount (l : List TripRecord) : ℕ :=
  (l.filter fun r => r.actual_billing_basis == some "Planned").length

/-- Count of records billed as Planned whose status is COMPLETED. -/
def plannedCompleted (l : List TripRecord) : ℕ :=
  (l.filter fun r =>
    r.actual_billing_basis == some "Planned" && r.trip_status == some "COMPLETED").length

/-- Count of records billed as Adhoc. -/
def adhocCount (l : List TripRecord) : ℕ :=
  (l.filter fun r => r.actual_billing_basis == some "Adhoc").length

/-- Count of records with status CANCELLED. -/
def cancelCount (l : List TripRecord) : ℕ :=
  (l.filter fun r => r.trip_status == some "CANCELLED").length

/-- The five executive KPI values of section 4 of dashboard.py. The
first three rates carry an explicit guard on a zero denominator; the
vehicle compliance mean does not, hence its Option type. -/
structure FleetKpis where
  total : ℕ
  plan_execution : ℚ
  adhoc_rate : ℚ
  cancel_rate : ℚ
  vehicle_compliance : Option ℚ
deriving DecidableEq

def fleetKpis (l : List TripRecord) : FleetKpis :=
  let total := l.length
  { total := total
    plan_execution :=
      if 0 < plannedCount l then (plannedCompleted l : ℚ) / plannedCount l * 100 else 0
    adhoc_rate := if 0 < total then (adhocCount l : ℚ) / total * 100 else 0
    cancel_rate := if 0 < total then (cancelCount l : ℚ) / total * 100 else 0
    vehicle_compliance := (meanQ (l.map matchInt)).map (· * 100) }

/-- The KPI scorecard strings exactly as st.metric renders them. -/
structure KpiMetrics where
  total : ℕ
  plan_execution : String
  adhoc_rate : String
  cancel_rate : String
  vehicle_compliance : String
deriving DecidableEq

def kpiMetrics (l : List TripRecord) : KpiMetrics :=
  let k := fleetKpis l
  { total := k.total
    plan_execution := fmt1 k.plan_execution ++ "%"
    adhoc_rate := fmt1 k.adhoc_rate ++ "%"
    cancel_rate := fmt1 k.cancel_rate ++ "%"
    vehicle_compliance := renderPct k.vehicle_compliance }

/-- One row of the Mother Hub performance table. -/
structure HubSummary where
  source_mh_name : String
  Total : ℕ
  Plan_Success_Rate : String
  Adhoc_Zepto : ℕ
  Adhoc_Vendor : ℕ
  Cancel_Zepto : ℕ
  Cancel_Vendor : ℕ
  Vehicle_Compliance : String
deriving DecidableEq

/-- The groupby keys: pandas sorts the distinct keys ascending and
drops rows whose key cell is missing. -/
def sortedKeys (f : TripRecord → Option String) (l : List TripRecord) : List String :=
  List.insertionSort (· ≤ ·) (l.filterMap f).dedup

/-- The aggregate row for one hub group. The Total column counts the
non-null master_trip_code cells of the group; the plan success rate has
no zero-denominator guard. -/
def hubRowOfGroup (k : String) (g : List TripRecord) : HubSummary :=
  { source_mh_name := k
    Total := (g.filter fun r => r.master_trip_code.isSome).length
    Plan_Success_Rate :=
      renderPct ((npDiv (plannedCompleted g) (plannedCount g)).map (· * 100))
    Adhoc_Zepto := (g.filter fun r => get_adhoc_owner r == "Zepto Issue").length
    Adhoc_Vendor := (g.filter fun r => get_adhoc_owner r == "Vendor Issue").length
    Cancel_Zepto := (g.filter fun r => get_cancel_owner r == "Zepto Issue").length
    Cancel_Vendor := (g.filter fun r => get_cancel_owner r == "Vendor Issue").length
    Vehicle_Compliance := renderPct ((meanQ (g.map matchInt)).map (· * 100)) }

def hubRow (l : List TripRecord) (k : String) : HubSummary :=
  hubRowOfGroup k (l.filter fun r => r.source_mh_name == some k)

/-- The hub summary table before display sorting, one row per hub in
key order (ascending hub name, the pandas groupby order). -/
def summary_table (l : List TripRecord) : List HubSummary :=
  (sortedKeys (fun r => r.source_mh_name) l).map (hubRow l)

/-- Relation sorting greater keys first. -/
def keyLE {α : Type} (kf : α → ℕ) : α → α → Prop := fun a b => kf b ≤ kf a

instance {α : Type} (kf : α → ℕ) : DecidableRel (keyLE kf) :=
  fun a b => inferInstanceAs (Decidable (kf b ≤ kf a))

instance {α : Type} (kf : α → ℕ) : IsTotal α (keyLE kf) :=
  ⟨fun a b => (Nat.le_total (kf a) (kf b)).symm.imp id id⟩

instance {α : Type} (kf : α → ℕ) : IsTrans α (keyLE kf) :=
  ⟨fun _ _ _ hab hbc => Nat.le_trans hbc hab⟩

/-- Deterministic stand-in for sort_values on a numeric column with
ascending false: a stable descending sort. The code sorts with the
default numpy quicksort kind, whose order among equal keys is
implementation-defined (the numpy and pandas documentation mark only
mergesort and stable as stable kinds), so no fixed function can model
the tie order of the display in general. This stand-in coincides with
the code wherever the code is determined: on tables of at most sixteen
rows, where the numpy argsort kernel is a stable insertion sort and the
pandas double reversal for a descending sort preserves the tie order,
and on tables whose sort keys are pairwise distinct. Every theorem
below uses this function only through tie-independent properties:
its output is a permutation of its input, equal inputs give equal
outputs, and evaluation happens on one-row tables. -/
def sortDescByStable {α : Type} (kf : α → ℕ) (l : List α) : List α :=
  List.insertionSort (keyLE kf) l

/-- The hub table as displayed: sorted descending on Total; the tie
order of the display is implementation-defined in the code, see
sortDescByStable. -/
def summary_table_sorted (l : List TripRecord) : List HubSummary :=
  sortDescByStable (fun h => h.Total) (summary_table l)

/-- One row of the vendor failure table. -/
structure VendorSummary where
  actual_vendor : String
  Adhocs : ℕ
  Cancellations : ℕ
  Total_Failures : ℕ
deriving DecidableEq

def vendorRowOfGroup (v : String) (g : List TripRecord) : VendorSummary :=
  { actual_vendor := v
    Adhocs := adhocCount g
    Cancellations := cancelCount g
    Total_Failures := adhocCount g + cancelCount g }

def vendorRow (l : List TripRecord) (v : String) : VendorSummary :=
  vendorRowOfGroup v (l.filter fun r => r.actual_vendor == some v)

/-- The vendor stats table, one row per vendor in key order. -/
def vendor_stats (l : List TripRecord) : List VendorSummary :=
  (sortedKeys (fun r => r.actual_vendor) l).map (vendorRow l)

/-- The vendor table sorted descending on Total_Failures; the tie
order of the display is implementation-defined in the code, see
sortDescByStable. -/
def vendor_sorted (l : List TripRecord) : List VendorSummary :=
  sortDescByStable (fun v => v.Total_Failures) (vendor_stats l)

/-- The top ten rows of the sorted vendor table, the bar chart input. -/
def vendor_top10 (l : List TripRecord) : List VendorSummary :=
  (vendor_sorted l).take 10

/-! Concrete records used to instantiate the theorems. -/

/-- A fully populated planned, completed, compliant trip. -/
def recBase : TripRecord :=
  { master_trip_code := some "T1", trip_date := some "2024-01-01",
    source_mh_name := some "HubA", actual_billing_basis := some "Planned",
    trip_status := some "COMPLETED", adhoc_trip_creation_reason := none,
    cancellation_reason_code := none, planned_vehicle_type := some "Truck",
    actual_vehicle_type := some "Truck", actual_vendor := some "V1" }

/-- An adhoc trip whose creation reason holds the uppercase token. -/
def recAdhocVendor : TripRecord :=
  { recBase with
    master_trip_code := some "T2",
    actual_billing_basis := some "Adhoc",
    adhoc_trip_creation_reason := some "VENDOR_DELAY" }

/-- An adhoc trip whose creation reason holds the token only in
lowercase. -/
def recAdhocLower : TripRecord :=
  { recBase with
    master_trip_code := some "T3",
    actual_billing_basis := some "Adhoc",
    adhoc_trip_creation_reason := some "vendor_delay" }

/-- A cancelled trip with a vendor-fault cancellation code. -/
def recCancelVendor : TripRecord :=
  { recBase with
    master_trip_code := some "T4",
    trip_status := some "CANCELLED",
    cancellation_reason_code := some "VEHICLE_UNAVAILABILITY" }

/-- A cancelled trip with an empty cancellation code. -/
def recCancelEmpty : TripRecord :=
  { recBase with
    master_trip_code := some "T5",
    trip_status := some "CANCELLED",
    cancellation_reason_code := some "" }

/-- An adhoc trip that was also cancelled, for the double-count fact. -/
def recAdhocCancelled : TripRecord :=
  { recBase with
    master_trip_code := some "T6",
    actual_billing_basis := some "Adhoc",
    trip_status := some "CANCELLED",
    adhoc_trip_creation_reason := some "VENDOR_NO_SHOW",
    cancellation_reason_code := some "TRANSPORT_VENDOR_ISSUE" }

/-- A record with several required cells missing: no billing basis, no
trip status, no actual vehicle type. -/
def recMissing : TripRecord :=
  { master_trip_code := some "T7", trip_date := some "2024-01-01",
    source_mh_name := some "HubA", actual_billing_basis := none,
    trip_status := none, adhoc_trip_creation_reason := none,
    cancellation_reason_code := none, planned_vehicle_type := some "Truck",
    actual_vehicle_type := none, actual_vendor := some "V1" }

/-- A second hub record, for multi-group batches. -/
def recHubB : TripRecord :=
  { recBase with
    master_trip_code := some "T8",
    source_mh_name := some "HubB",
    actual_vendor := some "V2" }

/-! Evaluation lemmas for the rendering helpers. -/

lemma roundHalfEven_intCast (n : ℤ) : roundHalfEven (n : ℚ) = n := by
  unfold roundHalfEven
  norm_num

lemma fmt1_natCast (n : ℕ) : fmt1 (n : ℚ) = toString n ++ ".0" := by
  unfold fmt1
  have h : (n : ℚ) * 10 = ((n * 10 : ℤ) : ℚ) := by push_cast; ring
  rw [h, roundHalfEven_intCast]
  have h2 : ((n * 10 : ℤ)).toNat = n * 10 := by
    have h3 : ((n * 10 : ℕ) : ℤ) = ((n : ℤ) * 10) := by push_cast; ring
    rw [← h3, Int.toNat_natCast]
  rw [h2, Nat.mul_div_cancel n (by norm_num), Nat.mul_mod_left,
    String.append_assoc]
  rfl

lemma fmt1_zero : fmt1 0 = "0.0" := by
  have := fmt1_natCast 0
  simpa using this

lemma renderPct_none : renderPct none = "nan%" := rfl

/-! Theorems settling the claims. -/

/-- Claim C6: the adhoc owner differs from the not-applicable marker
exactly on records whose billing basis is Adhoc. -/
theorem adhoc_owner_na_iff (r : TripRecord) :
    get_adhoc_owner r ≠ "N/A" ↔ r.actual_billing_basis = some "Adhoc" := by
  unfold get_adhoc_owner
  by_cases h : r.actual_billing_basis = some "Adhoc"
  · rw [if_neg (by simp [h])]
    constructor
    · intro _; exact h
    · intro _; split <;> decide
  · rw [if_pos h]
    simp [h]

/-- Claim C2, counterexample: the containment test of the code is
case-sensitive, so an adhoc reason holding the token only in lowercase
is attributed to the operator even though the case-insensitive reading
of the claim demands a vendor attribution. -/
theorem adhoc_owner_case_cex :
    recAdhocLower.actual_billing_basis = some "Adhoc" ∧
    containsTok (upperStr (strOfCell recAdhocLower.adhoc_trip_creation_reason)) "VENDOR" = true ∧
    get_adhoc_owner recAdhocLower ≠ "Vendor Issue" ∧
    get_adhoc_owner recAdhocLower = "Zepto Issue" := by
  decide

/-- Claim C2 as amended: for an Adhoc record the owner is the vendor
exactly when the stringified reason contains the uppercase token under
the case-sensitive containment test, otherwise the operator, missing
and empty reasons included; for a non-Adhoc record the owner is the
not-applicable marker. -/
theorem adhoc_owner_amended (r : TripRecord) :
    (r.actual_billing_basis ≠ some "Adhoc" → get_adhoc_owner r = "N/A") ∧
    (r.actual_billing_basis = some "Adhoc" →
      (get_adhoc_owner r = "Vendor Issue" ↔
        containsTok (strOfCell r.adhoc_trip_creation_reason) "VENDOR" = true) ∧
      (get_adhoc_owner r = "Vendor Issue" ∨ get_adhoc_owner r = "Zepto Issue") ∧
      ((r.adhoc_trip_creation_reason = none ∨ r.adhoc_trip_creation_reason = some "") →
        get_adhoc_owner r = "Zepto Issue")) := by
  constructor
  · intro h
    unfold get_adhoc_owner
    rw [if_pos h]
  · intro h
    have hne : ¬ r.actual_billing_basis ≠ some "Adhoc" := by simp [h]
    refine ⟨?_, ?_, ?_⟩
    · unfold get_adhoc_owner
      rw [if_neg hne]
      constructor
      · intro hv
        by_contra hc
        rw [if_neg (by simpa using hc)] at hv
        exact absurd hv (by decide)
      · intro hc
        rw [if_pos hc]
    · unfold get_adhoc_owner
      rw [if_neg hne]
      split
      · exact Or.inl rfl
      · exact Or.inr rfl
    · intro hr
      unfold get_adhoc_owner
      rw [if_neg hne]
      rcases hr with hr | hr <;>
        rw [hr] <;> rw [if_neg (by decide)]

/-- Claim C2, witness: the scenario record with the uppercase reason is
attributed to the vendor. -/
theorem adhoc_owner_amended_witness :
    get_adhoc_owner recAdhocVendor = "Vendor Issue" := by
  have h := (adhoc_owner_amended recAdhocVendor).2 (by decide)
  exact h.1.mpr (by decide)

/-- Claim C3: for a cancelled record the owner is the vendor exactly
when the stringified cancellation code belongs to the fixed vendor
fault list, otherwise the operator, missing and empty codes included;
for a non-cancelled record the owner is the not-applicable marker. -/
theorem cancel_owner_matches_claim (r : TripRecord) :
    (r.trip_status ≠ some "CANCELLED" → get_cancel_owner r = "N/A") ∧
    (r.trip_status = some "CANCELLED" →
      (get_cancel_owner r = "Vendor Issue" ↔
        strOfCell r.cancellation_reason_code ∈
          ["PLANNED_VEHICLE_NOT_PROVIDED_BY_VENDOR", "VEHICLE_UNAVAILABILITY",
           "PLANNED_VEHICLE_BREAKDOWN", "TRANSPORT_VENDOR_ISSUE"]) ∧
      (get_cancel_owner r = "Vendor Issue" ∨ get_cancel_owner r = "Zepto Issue") ∧
      ((r.cancellation_reason_code = none ∨ r.cancellation_reason_code = some "") →
        get_cancel_owner r = "Zepto Issue")) := by
  constructor
  · intro h
    unfold get_cancel_owner
    rw [if_pos h]
  · intro h
    have hne : ¬ r.trip_status ≠ some "CANCELLED" := by simp [h]
    refine ⟨?_, ?_, ?_⟩
    · unfold get_cancel_owner
      rw [if_neg hne]
      constructor
      · intro hv
        by_contra hc
        rw [if_neg (fun hm => hc (by simpa [vendor_cancel_codes] using hm))] at hv
        exact absurd hv (by decide)
      · intro hc
        rw [if_pos (by simpa [vendor_cancel_codes] using hc)]
    · unfold get_cancel_owner
      rw [if_neg hne]
      split
      · exact Or.inl rfl
      · exact Or.inr rfl
    · intro hr
      unfold get_cancel_owner
      rw [if_neg hne]
      rcases hr with hr | hr <;>
        rw [hr] <;> rw [if_neg (by decide)]

/-- Claim C3, witness: the two scenario records, a vendor-fault code
and an empty code. -/
theorem cancel_owner_matches_claim_witness :
    get_cancel_owner recCancelVendor = "Vendor Issue" ∧
    get_cancel_owner recCancelEmpty = "Zepto Issue" := by
  constructor
  · exact ((cancel_owner_matches_claim recCancelVendor).2 (by decide)).1.mpr (by decide)
  · exact ((cancel_owner_matches_claim recCancelEmpty).2 (by decide)).2.2 (Or.inr (by decide))

/-- Claim C10: a single record that is both Adhoc billed and cancelled
raises the Adhocs count, the Cancellations count and hence the
Total_Failures of its vendor row by one, one and two: the failure
total counts such a trip twice. -/
theorem vendor_total_failures_double_count (l : List TripRecord) (r : TripRecord) (v : String)
    (hv : r.actual_vendor = some v) (hb : r.actual_billing_basis = some "Adhoc")
    (hs : r.trip_status = some "CANCELLED") :
    (vendorRow (r :: l) v).Adhocs = (vendorRow l v).Adhocs + 1 ∧
    (vendorRow (r :: l) v).Cancellations = (vendorRow l v).Cancellations + 1 ∧
    (vendorRow (r :: l) v).Total_Failures = (vendorRow l v).Total_Failures + 2 := by
  have h1 : (r.actual_vendor == some v) = true := by rw [hv]; simp
  have h2 : (r.actual_billing_basis == some "Adhoc") = true := by rw [hb]; simp
  have h3 : (r.trip_status == some "CANCELLED") = true := by rw [hs]; simp
  refine ⟨?_, ?_, ?_⟩ <;>
    simp only [vendorRow, vendorRowOfGroup, adhocCount, cancelCount,
      List.filter_cons, h1, h2, h3, if_true, List.length_cons] <;>
    omega

/-- Claim C10, witness: one adhoc-and-cancelled record on top of the
base batch. -/
theorem vendor_total_failures_double_count_witness :
    (vendorRow [recAdhocCancelled, recBase] "V1").Adhocs =
      (vendorRow [recBase] "V1").Adhocs + 1 ∧
    (vendorRow [recAdhocCancelled, recBase] "V1").Cancellations =
      (vendorRow [recBase] "V1").Cancellations + 1 ∧
    (vendorRow [recAdhocCancelled, recBase] "V1").Total_Failures =
      (vendorRow [recBase] "V1").Total_Failures + 2 :=
  vendor_total_failures_double_count [recBase] recAdhocCancelled "V1"
    (by decide) (by decide) (by decide)

/-- Claim C1, counterexample: a hub group with no Planned-basis records
renders its plan success rate as nan, not as the claimed zero rate; the
hub rate division carries no zero-denominator guard. -/
theorem hub_rate_zero_denominator_cex :
    plannedCount [recAdhocVendor] = 0 ∧
    (summary_table_sorted [recAdhocVendor]).map (fun h => h.Plan_Success_Rate) = ["nan%"] ∧
    "nan%" ≠ "0.0%" := by
  decide

/-- Claim C1 as amended: the three guarded fleet rates render as the
zero rate when their denominators are zero, while the unguarded hub
plan success rate and the vehicle compliance means render as nan when
their denominators are zero; no exception path exists in either case. -/
theorem rate_zero_denominator_amended (l : List TripRecord) (k : String) :
    (plannedCount l = 0 →
      (fleetKpis l).plan_execution = 0 ∧ (kpiMetrics l).plan_execution = "0.0%") ∧
    (l.length = 0 →
      (fleetKpis l).adhoc_rate = 0 ∧ (fleetKpis l).cancel_rate = 0 ∧
      (kpiMetrics l).adhoc_rate = "0.0%" ∧ (kpiMetrics l).cancel_rate = "0.0%" ∧
      (fleetKpis l).vehicle_compliance = none ∧
      (kpiMetrics l).vehicle_compliance = "nan%") ∧
    (plannedCount (l.filter fun r => r.source_mh_name == some k) = 0 →
      (hubRow l k).Plan_Success_Rate = "nan%") ∧
    ((l.filter fun r => r.source_mh_name == some k) = [] →
      (hubRow l k).Vehicle_Compliance = "nan%") := by
  refine ⟨?_, ?_, ?_, ?_⟩
  · intro h
    have hpe : (fleetKpis l).plan_execution = 0 := by
      unfold fleetKpis
      simp [h]
    refine ⟨hpe, ?_⟩
    have hk : (kpiMetrics l).plan_execution = fmt1 ((fleetKpis l).plan_execution) ++ "%" := rfl
    rw [hk, hpe, fmt1_zero]
    decide
  · intro h
    rw [List.length_eq_zero.mp h]
    refine ⟨rfl, rfl, ?_, ?_, rfl, rfl⟩
    · have hk : (kpiMetrics ([] : List TripRecord)).adhoc_rate = fmt1 0 ++ "%" := rfl
      rw [hk, fmt1_zero]
      decide
    · have hk : (kpiMetrics ([] : List TripRecord)).cancel_rate = fmt1 0 ++ "%" := rfl
      rw [hk, fmt1_zero]
      decide
  · intro h
    unfold hubRow hubRowOfGroup
    simp [npDiv, h, renderPct]
  · intro h
    unfold hubRow hubRowOfGroup
    rw [h]
    rfl

/-- Claim C1, amended witness: the empty batch renders the guarded
fleet rates as the zero rate, the unguarded vehicle compliance mean as
nan, and a hub group with no Planned records as nan. -/
theorem rate_zero_denominator_amended_witness :
    (kpiMetrics []).plan_execution = "0.0%" ∧
    (kpiMetrics []).vehicle_compliance = "nan%" ∧
    (hubRow [] "HubA").Plan_Success_Rate = "nan%" := by
  have h := rate_zero_denominator_amended [] "HubA"
  exact ⟨(h.1 (by decide)).2, (h.2.1 (by decide)).2.2.2.2.2, h.2.2.1 (by decide)⟩

/-- Claim C9, counterexample: a record lacking required cells (no
billing basis, no trip status, no actual vehicle type) is not rejected
and raises no error: the engine counts it and emits the full summary
row for its hub and vendor. -/
theorem missing_field_no_error_cex :
    recMissing.actual_billing_basis = none ∧
    recMissing.trip_status = none ∧
    recMissing.actual_vehicle_type = none ∧
    (kpiMetrics [recMissing]).total = 1 ∧
    (summary_table_sorted [recMissing]).map
      (fun h => (h.source_mh_name, h.Total, h.Plan_Success_Rate)) =
      [("HubA", 1, "nan%")] ∧
    (vendor_stats [recMissing]).map (fun v => (v.actual_vendor, v.Total_Failures)) =
      [("V1", 0)] := by
  decide

/-- Claim C9 as amended: the engine has no missing-field failure path:
a record whose status and basis cells are missing flows through the
classifiers with the not-applicable defaults and is still counted in
the totals; complete summaries are produced for the batch. -/
theorem missing_field_amended (l : List TripRecord) (r : TripRecord)
    (hs : r.trip_status = none) (hb : r.actual_billing_basis = none) :
    get_cancel_owner r = "N/A" ∧ get_adhoc_owner r = "N/A" ∧
    (fleetKpis (r :: l)).total = (fleetKpis l).total + 1 := by
  refine ⟨?_, ?_, ?_⟩
  · unfold get_cancel_owner
    rw [if_pos (by simp [hs])]
  · unfold get_adhoc_owner
    rw [if_pos (by simp [hb])]
  · simp [fleetKpis]

/-- Claim C9, amended witness: the record with the missing cells. -/
theorem missing_field_amended_witness :
    get_cancel_owner recMissing = "N/A" ∧ get_adhoc_owner recMissing = "N/A" ∧
    (fleetKpis [recMissing]).total = (fleetKpis []).total + 1 :=
  missing_field_amended [] recMissing (by decide) (by decide)

lemma sum_map_add_nat {β : Type} (ks : List β) (f g : β → ℕ) :
    (ks.map fun k => f k + g k).sum = (ks.map f).sum + (ks.map g).sum := by
  induction ks with
  | nil => simp
  | cons a t ih =>
    simp only [List.map_cons, List.sum_cons, ih]
    omega

lemma sum_indicator_zero (k₀ : String) :
    ∀ ks : List String, k₀ ∉ ks →
    (ks.map fun k => if k₀ = k then 1 else 0).sum = 0 := by
  intro ks
  induction ks with
  | nil => intro _; simp
  | cons a t ih =>
    intro h
    have h1 : k₀ ≠ a := fun e => h (e ▸ List.mem_cons_self a t)
    have h2 : k₀ ∉ t := fun hm => h (List.mem_cons_of_mem a hm)
    simp only [List.map_cons, List.sum_cons, if_neg h1, ih h2]

lemma sum_indicator_one (k₀ : String) :
    ∀ ks : List String, ks.Nodup → k₀ ∈ ks →
    (ks.map fun k => if k₀ = k then 1 else 0).sum = 1 := by
  intro ks
  induction ks with
  | nil => intro _ hk; cases hk
  | cons a t ih =>
    intro hnd hk
    rcases List.mem_cons.mp hk with h | h
    · subst h
      have hnot : k₀ ∉ t := (List.nodup_cons.mp hnd).1
      simp [sum_indicator_zero k₀ t hnot]
    · have hna : k₀ ≠ a := by
        rintro rfl
        exact (List.nodup_cons.mp hnd).1 h
      simp [if_neg hna, ih (List.nodup_cons.mp hnd).2 h]

lemma sum_group_counts (key : TripRecord → Option String) :
    ∀ (l : List TripRecord) (ks : List String), ks.Nodup →
    (∀ r ∈ l, ∃ k ∈ ks, key r = some k) →
    (ks.map fun k => (l.filter fun x => key x == some k).length).sum = l.length := by
  intro l
  induction l with
  | nil => intro ks _ _; simp
  | cons r t ih =>
    intro ks hnd hcov
    obtain ⟨k₀, hk₀, hkey⟩ := hcov r (List.mem_cons_self r t)
    have hstep : ∀ k ∈ ks, ((r :: t).filter fun x => key x == some k).length
        = (if k₀ = k then 1 else 0) + (t.filter fun x => key x == some k).length := by
      intro k _
      rw [List.filter_cons]
      by_cases hk : k₀ = k
      · subst hk
        have hc : (key r == some k₀) = true := by simp [hkey]
        rw [if_pos hc, if_pos rfl]
        simp [Nat.add_comm]
      · have hc : ¬ (key r == some k) = true := by simp [hkey, hk]
        rw [if_neg hc, if_neg hk]
        simp
    calc (ks.map fun k => ((r :: t).filter fun x => key x == some k).length).sum
        = (ks.map fun k =>
            (if k₀ = k then 1 else 0) + (t.filter fun x => key x == some k).length).sum := by
          exact congrArg List.sum (List.map_congr_left hstep)
      _ = (ks.map fun k => if k₀ = k then 1 else 0).sum
            + (ks.map fun k => (t.filter fun x => key x == some k).length).sum :=
          sum_map_add_nat ks _ _
      _ = 1 + t.length := by
          rw [sum_indicator_one k₀ ks hnd hk₀,
            ih ks hnd (fun x hx => hcov x (List.mem_cons_of_mem r hx))]
      _ = (r :: t).length := by simp [Nat.add_comm]

lemma sortedKeys_nodup (f : TripRecord → Option String) (l : List TripRecord) :
    (sortedKeys f l).Nodup :=
  (List.perm_insertionSort _ _).symm.nodup (List.nodup_dedup _)

lemma mem_sortedKeys {f : TripRecord → Option String} {l : List TripRecord} {k : String} :
    k ∈ sortedKeys f l ↔ ∃ r ∈ l, f r = some k := by
  unfold sortedKeys
  rw [List.mem_insertionSort, List.mem_dedup, List.mem_filterMap]

/-- Claim C7: when every record carries its hub name and its trip code,
the hub grouping is a partition: the Total column of the displayed
summary table sums to the size of the input batch. -/
theorem hub_totals_partition (l : List TripRecord)
    (hreq : ∀ r ∈ l, r.source_mh_name.isSome ∧ r.master_trip_code.isSome) :
    ((summary_table_sorted l).map fun h => h.Total).sum = l.length := by
  have hperm : (summary_table_sorted l).Perm (summary_table l) := List.perm_insertionSort _ _
  rw [(hperm.map fun h => h.Total).sum_eq]
  unfold summary_table
  rw [List.map_map]
  have h2 : ∀ k ∈ sortedKeys (fun r => r.source_mh_name) l,
      ((fun h => h.Total) ∘ hubRow l) k
        = ((l.filter fun r => r.source_mh_name == some k)).length := by
    intro k _
    show ((l.filter fun r => r.source_mh_name == some k).filter
          fun r => r.master_trip_code.isSome).length
        = (l.filter fun r => r.source_mh_name == some k).length
    rw [List.filter_eq_self.mpr]
    intro x hx
    exact (hreq x (List.mem_filter.mp hx).1).2
  rw [List.map_congr_left h2]
  apply sum_group_counts
  · exact sortedKeys_nodup _ l
  · intro r hr
    obtain ⟨k, hk⟩ := Option.isSome_iff_exists.mp (hreq r hr).1
    exact ⟨k, mem_sortedKeys.mpr ⟨r, hr, hk⟩, hk⟩

/-- Claim C7, witness: a three-record batch over two hubs. -/
theorem hub_totals_partition_witness :
    ((summary_table_sorted [recBase, recHubB, recAdhocVendor]).map fun h => h.Total).sum
      = 3 :=
  hub_totals_partition [recBase, recHubB, recAdhocVendor] (by decide)

lemma plannedCount_perm {l l' : List TripRecord} (h : l.Perm l') :
    plannedCount l = plannedCount l' :=
  (h.filter _).length_eq

lemma plannedCompleted_perm {l l' : List TripRecord} (h : l.Perm l') :
    plannedCompleted l = plannedCompleted l' :=
  (h.filter _).length_eq

lemma adhocCount_perm {l l' : List TripRecord} (h : l.Perm l') :
    adhocCount l = adhocCount l' :=
  (h.filter _).length_eq

lemma cancelCount_perm {l l' : List TripRecord} (h : l.Perm l') :
    cancelCount l = cancelCount l' :=
  (h.filter _).length_eq

lemma meanQ_matchInt_perm {l l' : List TripRecord} (h : l.Perm l') :
    meanQ (l.map matchInt) = meanQ (l'.map matchInt) := by
  unfold meanQ
  rw [(h.map matchInt).length_eq, (h.map matchInt).sum_eq]

lemma fleetKpis_perm {l l' : List TripRecord} (h : l.Perm l') :
    fleetKpis l = fleetKpis l' := by
  unfold fleetKpis
  rw [h.length_eq, plannedCount_perm h, plannedCompleted_perm h, adhocCount_perm h,
    cancelCount_perm h, meanQ_matchInt_perm h]

lemma sortedKeys_perm_eq (f : TripRecord → Option String) {l l' : List TripRecord}
    (h : l.Perm l') : sortedKeys f l = sortedKeys f l' := by
  unfold sortedKeys
  have hd : ((l.filterMap f).dedup).Perm ((l'.filterMap f).dedup) := (h.filterMap f).dedup
  exact List.eq_of_perm_of_sorted
    ((List.perm_insertionSort _ _).trans (hd.trans (List.perm_insertionSort _ _).symm))
    (List.sorted_insertionSort _ _) (List.sorted_insertionSort _ _)

lemma hubRowOfGroup_perm (k : String) {g g' : List TripRecord} (h : g.Perm g') :
    hubRowOfGroup k g = hubRowOfGroup k g' := by
  unfold hubRowOfGroup
  rw [(h.filter fun r => r.master_trip_code.isSome).length_eq,
    plannedCount_perm h, plannedCompleted_perm h,
    (h.filter fun r => get_adhoc_owner r == "Zepto Issue").length_eq,
    (h.filter fun r => get_adhoc_owner r == "Vendor Issue").length_eq,
    (h.filter fun r => get_cancel_owner r == "Zepto Issue").length_eq,
    (h.filter fun r => get_cancel_owner r == "Vendor Issue").length_eq,
    meanQ_matchInt_perm h]

lemma summary_table_perm_eq {l l' : List TripRecord} (h : l.Perm l') :
    summary_table l = summary_table l' := by
  unfold summary_table hubRow
  rw [sortedKeys_perm_eq _ h]
  exact List.map_congr_left fun k _ => hubRowOfGroup_perm k (h.filter _)

lemma vendorRowOfGroup_perm (v : String) {g g' : List TripRecord} (h : g.Perm g') :
    vendorRowOfGroup v g = vendorRowOfGroup v g' := by
  unfold vendorRowOfGroup
  rw [adhocCount_perm h, cancelCount_perm h]

lemma vendor_stats_perm_eq {l l' : List TripRecord} (h : l.Perm l') :
    vendor_stats l = vendor_stats l' := by
  unfold vendor_stats vendorRow
  rw [sortedKeys_perm_eq _ h]
  exact List.map_congr_left fun v _ => vendorRowOfGroup_perm v (h.filter _)

/-- Claim C8: every aggregate is invariant under permutation of the
input batch: the fleet KPI values, the hub table before and after the
display sort, and the vendor tables are equal, row for row, on any
reordering of the records. -/
theorem aggregation_perm_invariant (l l' : List TripRecord) (h : l.Perm l') :
    fleetKpis l = fleetKpis l' ∧
    summary_table l = summary_table l' ∧
    summary_table_sorted l = summary_table_sorted l' ∧
    vendor_stats l = vendor_stats l' ∧
    vendor_sorted l = vendor_sorted l' ∧
    vendor_top10 l = vendor_top10 l' := by
  have h1 := summary_table_perm_eq h
  have h2 := vendor_stats_perm_eq h
  refine ⟨fleetKpis_perm h, h1, ?_, h2, ?_, ?_⟩
  · unfold summary_table_sorted
    rw [h1]
  · unfold vendor_sorted
    rw [h2]
  · unfold vendor_top10 vendor_sorted
    rw [h2]

/-- Claim C8, witness: a two-record batch and its transposition. -/
theorem aggregation_perm_invariant_witness :
    fleetKpis [recBase, recHubB] = fleetKpis [recHubB, recBase] ∧
    summary_table [recBase, recHubB] = summary_table [recHubB, recBase] ∧
    summary_table_sorted [recBase, recHubB] = summary_table_sorted [recHubB, recBase] ∧
    vendor_stats [recBase, recHubB] = vendor_stats [recHubB, recBase] ∧
    vendor_sorted [recBase, recHubB] = vendor_sorted [recHubB, recBase] ∧
    vendor_top10 [recBase, recHubB] = vendor_top10 [recHubB, recBase] :=
  aggregation_perm_invariant [recBase, recHubB] [recHubB, recBase]
    (List.Perm.swap recHubB recBase [])

end Dashboard
